import Mathlib

/-!
Verification of the SoftLayer Packer builder (`builder/softlayer/builder.go`).

Shallow embedding: the `config` structure mirrors the Go `config` struct; the
configuration resolver `Prepare` is embedded as a pure function of the raw
decoded input, an environment snapshot, the current clock reading, the
template-expansion function and the duration parser (the latter two are
external collaborators: `packer.ConfigTemplate.Process` and
`time.ParseDuration`); `Run`'s post-step-loop outcome logic is embedded as a
function of the final state bag (the step loop itself lives in the external
`multistep` library); `Cancel` is embedded as a transition on the builder
state.
-/

/-- The Go `config` struct (builder.go lines 17-46).  String fields default to
`""` and numeric fields to `0`, mirroring Go zero values after decoding.
Durations (`SshTimeout`, `StateTimeout`) are int64 nanosecond counts. -/
structure config where
  Username : String := ""
  APIKey : String := ""
  DatacenterName : String := ""
  ImageName : String := ""
  ImageDescription : String := ""
  ImageType : String := ""
  BaseImageId : String := ""
  BaseOsCode : String := ""
  InstanceName : String := ""
  InstanceDomain : String := ""
  InstanceCpu : Int := 0
  InstanceMemory : Int := 0
  InstanceNetworkSpeed : Int := 0
  InstanceDiskCapacity : Int := 0
  SshPort : Int := 0
  SshUserName : String := ""
  SshPrivateKeyFile : String := ""
  RawSshTimeout : String := ""
  RawStateTimeout : String := ""
  SshTimeout : Int := 0
  StateTimeout : Int := 0
  deriving Repr, DecidableEq

/-- The image type constant `IMAGE_TYPE_FLEX` (builder.go line 49). -/
def IMAGE_TYPE_FLEX : String := "flex"

/-- The image type constant `IMAGE_TYPE_STANDARD` (builder.go line 50). -/
def IMAGE_TYPE_STANDARD : String := "standard"

/-- Modelled from the spec: the provider client collaborator, "constructed once
from (username, API key)" (`SoftlayerClient{}.New` at builder.go line 231; the
client implementation file is not part of the embedded sources). -/
structure SoftlayerClient where
  username : String
  apiKey : String
  deriving Repr, DecidableEq

/-- `SoftlayerClient{}.New(username, apiKey)`.  Modelled from the spec: the
client holds the two credentials it is constructed from. -/
def SoftlayerClient.new (username apiKey : String) : SoftlayerClient :=
  ⟨username, apiKey⟩

/-- The Artifact as constructed in `Builder.Run` (builder.go lines 271-276):
image name, image id, datacenter name and the shared client reference.  The
Artifact type declaration itself lives in a file not among the embedded
sources; its four fields are modelled from the construction site and the
spec's artifact description. -/
structure Artifact where
  imageName : String
  imageId : String
  datacenterName : String
  client : SoftlayerClient
  deriving Repr, DecidableEq

/-- A value stored in the multistep state bag.  Steps store Go values of
various dynamic types; `Run` only ever inspects the `"error"` key (asserted to
type `error`) and the `"image_id"` key (asserted to type `string`), so the
embedding distinguishes error values, string values, and the opaquely-handled
seeded values (config, client, ui/hook handles). -/
inductive Value where
  | err (e : String)
  | str (s : String)
  | conf (c : config)
  | client (c : SoftlayerClient)
  | handle (tag : String)
  deriving Repr, DecidableEq

/-- The multistep state bag: string keys to dynamic values. -/
def StateBag := List (String × Value)

/-- `state.GetOk(key)`: lookup with a presence flag (here: `Option`). -/
def StateBag.getOk (st : StateBag) (k : String) : Option Value :=
  List.lookup k st

/-- The Builder struct (builder.go lines 53-56): a resolved configuration and
a runner that is nil until `Run` installs one. -/
structure Runner where
  cancelled : Bool
  deriving Repr, DecidableEq

/-- Modelled from the spec: the runner's `Cancel` capability — the orchestrator
"forwards Cancel to whichever step exposes a Cancel capability"; the runner
records that cancellation was requested (`multistep.BasicRunner` is an
external collaborator). -/
def Runner.cancel (r : Runner) : Runner :=
  { r with cancelled := true }

/-- The `Builder` struct (builder.go lines 53-56). -/
structure Builder where
  config : config
  runner : Option Runner := none
  deriving Repr, DecidableEq

/-- The pair of return values of `Builder.Run`: a possibly-nil artifact and a
possibly-nil error. -/
structure RunRet where
  artifact : Option Artifact
  error : Option String
  deriving Repr, DecidableEq

/-- The outcome logic of `Builder.Run` (builder.go lines 228-279) as a
function of the final state bag left by the step loop.  The step loop itself
(`multistep.BasicRunner.Run`, line 258) is an external collaborator, so the
final state bag is a parameter.  The client is constructed at run start
(line 231).  After the loop: if the bag holds an `"error"` value, return
`(nil, err)` (lines 261-263); else if `"image_id"` is absent, log and return
`(nil, nil)` (lines 265-268); else build the Artifact from the configuration's
image name, the bag's image id, the configuration's datacenter and the client
(lines 271-278).  The Go type assertions `rawErr.(error)` and
`state.Get("image_id").(string)` panic on a value of the wrong dynamic type;
the embedding returns `none` for those panicking executions. -/
def Builder.run (self : Builder) (finalState : StateBag) : Option RunRet :=
  let client := SoftlayerClient.new self.config.Username self.config.APIKey
  match finalState.getOk "error" with
  | some (Value.err e) => some ⟨none, some e⟩
  | some _ => none
  | none =>
    match finalState.getOk "image_id" with
    | some (Value.str s) =>
        some ⟨some ⟨self.config.ImageName, s, self.config.DatacenterName, client⟩, none⟩
    | some _ => none
    | none => some ⟨none, none⟩

/-- `Builder.Cancel` (builder.go lines 282-288): forwards to the runner's
Cancel only when the runner is non-nil; otherwise only prints. -/
def Builder.cancel (self : Builder) : Builder :=
  match self.runner with
  | none => self
  | some r => { self with runner := some r.cancel }

/-- The environment snapshot `Prepare` reads: `os.Getenv("SOFTLAYER_API_KEY")`
(builder.go line 80) and `os.Getenv("SOFTLAYER_USER_NAME")` (line 85).
`os.Getenv` yields `""` for an unset variable, so the fields are plain
strings. -/
structure Env where
  softlayerApiKey : String := ""
  softlayerUserName : String := ""
  deriving Repr, DecidableEq

/-- The errors `Prepare` can accumulate into its `packer.MultiError`.  Each
constructor corresponds to one `errors.New` / `fmt.Errorf` site (or, for
`unusedKey`, to the external `common.CheckUnusedConfig` seeding the list);
the dynamic parts of the formatted messages are carried as arguments, and
`GoErr.message` renders the exact source message text. -/
inductive GoErr where
  | unusedKey (msg : String)
  | tplProcess (fieldName : String) (msg : String)
  | missingApiKey
  | missingUsername
  | missingImageName
  | unknownImageType (t : String)
  | baseBothMissing
  | baseBothSet
  | missingPrivateKeyFile
  | sshTimeoutParse (msg : String)
  | stateTimeoutParse (msg : String)
  deriving Repr, DecidableEq

/-- The exact message text of each error site in `Prepare` (builder.go lines
161, 166-214).  `\x27` is the apostrophe character. -/
def GoErr.message : GoErr → String
  | .unusedKey m => m
  | .tplProcess n m => "Error processing " ++ n ++ ": " ++ m
  | .missingApiKey => "api_key or the SOFTLAYER_API_KEY environment variable must be specified"
  | .missingUsername => "username or the SOFTLAYER_USER_NAME environment variable must be specified"
  | .missingImageName => "image_name must be specified"
  | .unknownImageType t =>
      "Unknown image_type \x27" ++ t ++ "\x27. Must be one of \x27flex\x27 (the default) or \x27standard\x27."
  | .baseBothMissing => "please specify base_image_id or base_os_code"
  | .baseBothSet => "please specify only one of base_image_id or base_os_code"
  | .missingPrivateKeyFile =>
      "when using base_image_id, you must specify ssh_private_key_file " ++
      "since automatic ssh key config for custom images isn\x27t supported by SoftLayer API"
  | .sshTimeoutParse m => "Failed parsing ssh_timeout: " ++ m
  | .stateTimeoutParse m => "Failed parsing state_timeout: " ++ m

/-- Go renders `fmt.Sprintf("packer-softlayer-%s", n)` for an `int64` `n` with
the `%!s` bad-verb notice, so the defaulted instance name (builder.go line 93)
is `"packer-softlayer-%!s(int64=<unix-seconds>)"`. -/
def goSprintfSInt64 (n : Int) : String :=
  "%!s(int64=" ++ toString n ++ ")"

/-- The defaulting block of `Prepare` (builder.go lines 77-138): each field is
replaced by its fallback exactly when it holds the Go zero value.  `env` is
the environment snapshot and `now` the `time.Now().Unix()` reading used for
the instance-name default.  Each of the fifteen `if` statements reads only
the field it writes, so the sequential block is embedded as the simultaneous
field-wise update below. -/
def applyDefaults (c : config) (env : Env) (now : Int) : config :=
  { c with
    APIKey := if c.APIKey = "" then env.softlayerApiKey else c.APIKey
    Username := if c.Username = "" then env.softlayerUserName else c.Username
    DatacenterName := if c.DatacenterName = "" then "ams01" else c.DatacenterName
    InstanceName := if c.InstanceName = "" then
      "packer-softlayer-" ++ goSprintfSInt64 now else c.InstanceName
    InstanceDomain := if c.InstanceDomain = "" then "defaultdomain.com" else c.InstanceDomain
    ImageDescription := if c.ImageDescription = "" then
      "Instance snapshot. Generated by packer.io" else c.ImageDescription
    ImageType := if c.ImageType = "" then IMAGE_TYPE_FLEX else c.ImageType
    InstanceCpu := if c.InstanceCpu = 0 then 1 else c.InstanceCpu
    InstanceMemory := if c.InstanceMemory = 0 then 1024 else c.InstanceMemory
    InstanceNetworkSpeed := if c.InstanceNetworkSpeed = 0 then 10 else c.InstanceNetworkSpeed
    InstanceDiskCapacity := if c.InstanceDiskCapacity = 0 then 25 else c.InstanceDiskCapacity
    SshPort := if c.SshPort = 0 then 22 else c.SshPort
    SshUserName := if c.SshUserName = "" then "root" else c.SshUserName
    RawSshTimeout := if c.RawSshTimeout = "" then "5m" else c.RawSshTimeout
    RawStateTimeout := if c.RawStateTimeout = "" then "10m" else c.RawStateTimeout }

/-- The external `ConfigTemplate.Process` collaborator: from a raw string it
yields the processed string and an optional error message.  Go assigns the
returned string to the field even when an error is reported
(`*ptr, err = self.config.tpl.Process(*ptr, nil)`, builder.go line 159). -/
def Tpl := String → String × Option String

/-- The error contribution of processing one template field (builder.go
lines 157-163): an `Error processing <name>: <err>` entry when `Process`
reports an error, nothing otherwise. -/
def tplErrOf (tpl : Tpl) (n v : String) : List GoErr :=
  match (tpl v).2 with
  | none => []
  | some m => [GoErr.tplProcess n m]

/-- The template-processing loop of `Prepare` (builder.go lines 140-163) over
the fourteen fields of the `templates` map literal.  Each iteration reads and
writes only its own field, so the loop's effect is the independent per-field
update below; the error list is given in the map-literal order (Go map
iteration order is unspecified, and no claim depends on it). -/
def processTemplates (tpl : Tpl) (c : config) : config × List GoErr :=
  ({ c with
      Username := (tpl c.Username).1
      APIKey := (tpl c.APIKey).1
      DatacenterName := (tpl c.DatacenterName).1
      BaseImageId := (tpl c.BaseImageId).1
      ImageName := (tpl c.ImageName).1
      ImageDescription := (tpl c.ImageDescription).1
      ImageType := (tpl c.ImageType).1
      BaseOsCode := (tpl c.BaseOsCode).1
      InstanceName := (tpl c.InstanceName).1
      InstanceDomain := (tpl c.InstanceDomain).1
      RawSshTimeout := (tpl c.RawSshTimeout).1
      RawStateTimeout := (tpl c.RawStateTimeout).1
      SshUserName := (tpl c.SshUserName).1
      SshPrivateKeyFile := (tpl c.SshPrivateKeyFile).1 },
   tplErrOf tpl "username" c.Username ++
   tplErrOf tpl "api_key" c.APIKey ++
   tplErrOf tpl "datacenter_name" c.DatacenterName ++
   tplErrOf tpl "base_image_id" c.BaseImageId ++
   tplErrOf tpl "image_name" c.ImageName ++
   tplErrOf tpl "image_description" c.ImageDescription ++
   tplErrOf tpl "image_type" c.ImageType ++
   tplErrOf tpl "base_os_code" c.BaseOsCode ++
   tplErrOf tpl "instance_name" c.InstanceName ++
   tplErrOf tpl "instance_domain" c.InstanceDomain ++
   tplErrOf tpl "ssh_timeout" c.RawSshTimeout ++
   tplErrOf tpl "instance_state_timeout" c.RawStateTimeout ++
   tplErrOf tpl "ssh_username" c.SshUserName ++
   tplErrOf tpl "ssh_private_key_file" c.SshPrivateKeyFile)

/-- The required-field and cross-field validation block of `Prepare`
(builder.go lines 165-200), in source order. -/
def validate (c : config) : List GoErr :=
  (if c.APIKey = "" then [GoErr.missingApiKey] else []) ++
  (if c.Username = "" then [GoErr.missingUsername] else []) ++
  (if c.ImageName = "" then [GoErr.missingImageName] else []) ++
  (if c.ImageType ≠ IMAGE_TYPE_FLEX ∧ c.ImageType ≠ IMAGE_TYPE_STANDARD then
    [GoErr.unknownImageType c.ImageType] else []) ++
  (if c.BaseImageId = "" ∧ c.BaseOsCode = "" then [GoErr.baseBothMissing] else []) ++
  (if c.BaseImageId ≠ "" ∧ c.BaseOsCode ≠ "" then [GoErr.baseBothSet] else []) ++
  (if c.BaseImageId ≠ "" ∧ c.SshPrivateKeyFile = "" then [GoErr.missingPrivateKeyFile] else [])

/-- The external `time.ParseDuration` collaborator: a duration string to an
int64 nanosecond count, or a parse-error message. -/
def ParseDuration := String → Except String Int

/-- The duration-translation block of `Prepare` (builder.go lines 202-215):
each parse failure is accumulated and the (zero) result is still assigned to
the config; a failure does not abort the other parse. -/
def parseDurations (pd : ParseDuration) (c : config) : config × List GoErr :=
  let (sshT, e1) : Int × List GoErr :=
    match pd c.RawSshTimeout with
    | .ok d => (d, [])
    | .error m => (0, [GoErr.sshTimeoutParse m])
  let (stateT, e2) : Int × List GoErr :=
    match pd c.RawStateTimeout with
    | .ok d => (d, [])
    | .error m => (0, [GoErr.stateTimeoutParse m])
  ({ c with SshTimeout := sshT, StateTimeout := stateT }, e1 ++ e2)

/-- The outcome of `Prepare`: the resolved configuration (the final value of
`self.config`) and the accumulated `errs.Errors` list. -/
structure PrepareResult where
  cfg : config
  errs : List GoErr
  deriving Repr, DecidableEq

/-- `Builder.Prepare` (builder.go lines 59-224) after decoding, as a pure
function.  `errs0` is the error list seeded by the external
`common.CheckUnusedConfig` (empty when the raw keys are all recognized),
`tpl` the template-expansion collaborator, `pd` the duration parser, `env`
the environment snapshot, `now` the `time.Now().Unix()` clock reading, and
`raw` the decoded input.  It applies defaults (lines 77-138), processes
templates (lines 140-163), validates (lines 165-200) and parses the two
durations (lines 202-215), accumulating errors in that order. -/
def prepare (errs0 : List GoErr) (tpl : Tpl) (pd : ParseDuration) (env : Env)
    (now : Int) (raw : config) : PrepareResult :=
  let d := applyDefaults raw env now
  let pt := processTemplates tpl d
  let verrs := validate pt.1
  let pds := parseDurations pd pt.1
  ⟨pds.1, errs0 ++ pt.2 ++ verrs ++ pds.2⟩

/-- The return value of `Prepare` (builder.go lines 219-223): a non-nil error
exactly when `errs.Errors` is non-empty; the single returned Go error carries
the `MultiError` rendering of the whole accumulated list, modelled as the list
itself. -/
def prepareRet (errs : List GoErr) : Option (List GoErr) :=
  if errs.length > 0 then some errs else none

/-- A template function that expands nothing and never fails: the behavior of
`ConfigTemplate.Process` on strings with no template references. -/
def tplId : Tpl := fun s => (s, none)

/-- A concrete `time.ParseDuration` snapshot on the inputs the claims touch:
`"5m"` is 300e9 ns, `"10m"` is 600e9 ns, anything else fails (Go rejects
the empty string and non-duration strings). -/
def pdConcrete : ParseDuration := fun s =>
  if s = "5m" then .ok 300000000000
  else if s = "10m" then .ok 600000000000
  else .error ("time: invalid duration " ++ s)

/-- A valid raw input: credentials and image name set, exactly the OS-code
half of the base-image alternative set, everything else left to defaults. -/
def validBase : config :=
  { APIKey := "k", Username := "u", ImageName := "img1", BaseOsCode := "UBUNTU_LATEST" }

/-- An error list consists only of unknown-key errors — the shape of the list
seeded by the external `common.CheckUnusedConfig`. -/
def onlyUnusedKeys (errs0 : List GoErr) : Prop :=
  ∀ x ∈ errs0, ∃ m, x = GoErr.unusedKey m

/-- Every error produced by one template field is a `tplProcess` error. -/
theorem mem_tplErrOf {tpl : Tpl} {n v : String} {x : GoErr}
    (h : x ∈ tplErrOf tpl n v) : ∃ m, x = GoErr.tplProcess n m := by
  rcases htv : (tpl v).2 with _ | m
  · simp [tplErrOf, htv] at h
  · simp [tplErrOf, htv] at h
    exact ⟨m, h⟩

/-- Every error produced by the template-processing loop is a `tplProcess`
error. -/
theorem mem_processTemplates_errs {tpl : Tpl} {c : config} {x : GoErr}
    (h : x ∈ (processTemplates tpl c).2) : ∃ n m, x = GoErr.tplProcess n m := by
  simp only [processTemplates, List.mem_append] at h
  rcases h with ((((((((((((h | h) | h) | h) | h) | h) | h) | h) | h) | h) | h) | h) | h) | h <;>
    obtain ⟨m, hm⟩ := mem_tplErrOf h <;> exact ⟨_, m, hm⟩

/-- Every error produced by the duration-translation block is one of the two
parse errors. -/
theorem mem_parseDurations_errs {pd : ParseDuration} {c : config} {x : GoErr}
    (h : x ∈ (parseDurations pd c).2) :
    (∃ m, x = GoErr.sshTimeoutParse m) ∨ (∃ m, x = GoErr.stateTimeoutParse m) := by
  rcases h1 : pd c.RawSshTimeout with m1 | d1 <;>
    rcases h2 : pd c.RawStateTimeout with m2 | d2 <;>
      simp [parseDurations, h1, h2] at h <;> tauto

/-- Membership in the accumulated error list decomposes over the four stages
of `Prepare`. -/
theorem mem_prepare_errs (errs0 : List GoErr) (tpl : Tpl) (pd : ParseDuration)
    (env : Env) (now : Int) (raw : config) (x : GoErr) :
    x ∈ (prepare errs0 tpl pd env now raw).errs ↔
      x ∈ errs0 ∨ x ∈ (processTemplates tpl (applyDefaults raw env now)).2 ∨
      x ∈ validate (processTemplates tpl (applyDefaults raw env now)).1 ∨
      x ∈ (parseDurations pd (processTemplates tpl (applyDefaults raw env now)).1).2 := by
  simp [prepare, List.mem_append]

/-- The `baseBothMissing` error is in the validation list exactly when both
base fields are empty. -/
theorem baseBothMissing_mem_validate (c : config) :
    GoErr.baseBothMissing ∈ validate c ↔ (c.BaseImageId = "" ∧ c.BaseOsCode = "") := by
  simp [validate]

/-- The `baseBothSet` error is in the validation list exactly when both base
fields are non-empty. -/
theorem baseBothSet_mem_validate (c : config) :
    GoErr.baseBothSet ∈ validate c ↔ (c.BaseImageId ≠ "" ∧ c.BaseOsCode ≠ "") := by
  simp [validate]

/-- The `missingPrivateKeyFile` error is in the validation list exactly when a
base image id is set and the private key file is empty. -/
theorem missingPrivateKeyFile_mem_validate (c : config) :
    GoErr.missingPrivateKeyFile ∈ validate c ↔
      (c.BaseImageId ≠ "" ∧ c.SshPrivateKeyFile = "") := by
  simp [validate]

/-- An `unknownImageType` error is in the validation list exactly when it
carries the configuration's image type and that type is outside the
enumeration. -/
theorem unknownImageType_mem_validate (c : config) (t : String) :
    GoErr.unknownImageType t ∈ validate c ↔
      (t = c.ImageType ∧ c.ImageType ≠ IMAGE_TYPE_FLEX ∧ c.ImageType ≠ IMAGE_TYPE_STANDARD) := by
  simp [validate]
  tauto

/-- C1: if the final state bag holds an error value under `"error"`, `Run`
returns no artifact and exactly that error value, unmodified. -/
theorem run_returns_step_error (self : Builder) (st : StateBag) (e : String)
    (h : st.getOk "error" = some (Value.err e)) :
    self.run st = some ⟨none, some e⟩ := by
  simp [Builder.run, h]

/-- Witness for C1 at a concrete final state bag. -/
theorem run_returns_step_error_witness :
    (StateBag.getOk [("error", Value.err "boom")] "error" = some (Value.err "boom")) ∧
    Builder.run ⟨{}, none⟩ [("error", Value.err "boom")] = some ⟨none, some "boom"⟩ :=
  ⟨rfl, run_returns_step_error ⟨{}, none⟩ [("error", Value.err "boom")] "boom" rfl⟩

/-- C2: with no `"error"` value and a string `"image_id"` value in the final
state bag, `Run` returns a nil error and an Artifact carrying the bag's image
id, the configuration's image name and datacenter name, and the client
constructed at run start from the configuration's credentials. -/
theorem run_returns_artifact (self : Builder) (st : StateBag) (s : String)
    (herr : st.getOk "error" = none)
    (hid : st.getOk "image_id" = some (Value.str s)) :
    self.run st = some ⟨some ⟨self.config.ImageName, s, self.config.DatacenterName,
      SoftlayerClient.new self.config.Username self.config.APIKey⟩, none⟩ := by
  simp [Builder.run, herr, hid]

/-- Witness for C2 at a concrete builder and final state bag. -/
theorem run_returns_artifact_witness :
    (StateBag.getOk [("image_id", Value.str "img-7")] "error" = none) ∧
    Builder.run ⟨{ ImageName := "n", DatacenterName := "ams01", Username := "u", APIKey := "k" }, none⟩
        [("image_id", Value.str "img-7")]
      = some ⟨some ⟨"n", "img-7", "ams01", SoftlayerClient.new "u" "k"⟩, none⟩ :=
  ⟨rfl, run_returns_artifact
    ⟨{ ImageName := "n", DatacenterName := "ams01", Username := "u", APIKey := "k" }, none⟩
    [("image_id", Value.str "img-7")] "img-7" rfl rfl⟩

/-- C3: with neither an `"error"` value nor an `"image_id"` value in the final
state bag, `Run` returns no artifact and no error. -/
theorem run_anomalous_completion (self : Builder) (st : StateBag)
    (herr : st.getOk "error" = none)
    (hid : st.getOk "image_id" = none) :
    self.run st = some ⟨none, none⟩ := by
  simp [Builder.run, herr, hid]

/-- Witness for C3 at the empty final state bag. -/
theorem run_anomalous_completion_witness :
    (StateBag.getOk ([] : StateBag) "error" = none) ∧
    Builder.run ⟨{}, none⟩ ([] : StateBag) = some ⟨none, none⟩ :=
  ⟨rfl, run_anomalous_completion ⟨{}, none⟩ ([] : StateBag) rfl rfl⟩

/-- C10: `Cancel` with a nil runner leaves the builder unchanged (no nil
dereference); with a runner present it forwards to the runner's Cancel. -/
theorem cancel_nil_runner_safe (self : Builder) :
    (self.runner = none → self.cancel = self) ∧
    (∀ r, self.runner = some r → self.cancel = { self with runner := some r.cancel }) := by
  constructor
  · intro h
    simp [Builder.cancel, h]
  · intro r h
    simp [Builder.cancel, h]

/-- Witness for C10: cancelling a never-run builder is the identity. -/
theorem cancel_nil_runner_safe_witness :
    Builder.cancel ⟨{}, none⟩ = ⟨{}, none⟩ :=
  (cancel_nil_runner_safe ⟨{}, none⟩).1 rfl

/-- Duration translation when both parses succeed: the parsed values are
assigned and no error is produced. -/
theorem parseDurations_ok (pd : ParseDuration) (c : config) (d1 d2 : Int)
    (h1 : pd c.RawSshTimeout = .ok d1) (h2 : pd c.RawStateTimeout = .ok d2) :
    parseDurations pd c = ({ c with SshTimeout := d1, StateTimeout := d2 }, []) := by
  simp [parseDurations, h1, h2]

/-- `Prepare` returns a nil error exactly when no error was accumulated. -/
theorem prepareRet_none_iff (errs : List GoErr) : prepareRet errs = none ↔ errs = [] := by
  cases errs <;> simp [prepareRet]

/-- `Prepare` returns the whole accumulated error list when it is non-empty. -/
theorem prepareRet_some (errs : List GoErr) (h : errs ≠ []) :
    prepareRet errs = some errs := by
  cases errs with
  | nil => exact absurd rfl h
  | cons a l => simp [prepareRet]

/-- Any accumulated error makes `Prepare` return a non-nil error. -/
theorem prepareRet_ne_none_of_mem (x : GoErr) (errs : List GoErr) (h : x ∈ errs) :
    prepareRet errs ≠ none := by
  intro hn
  rw [(prepareRet_none_iff errs).mp hn] at h
  exact absurd h (List.not_mem_nil x)

/-- C4: after defaulting and template expansion, `Prepare` fails with the
must-specify-one error when both base fields are empty and with the
specify-only-one error when both are non-empty; with exactly one of the two
set, neither error appears anywhere in the accumulated list. -/
theorem base_image_exclusivity (errs0 : List GoErr) (tpl : Tpl) (pd : ParseDuration)
    (env : Env) (now : Int) (raw e : config)
    (h0 : onlyUnusedKeys errs0)
    (he : e = (processTemplates tpl (applyDefaults raw env now)).1) :
    (e.BaseImageId = "" ∧ e.BaseOsCode = "" →
        GoErr.baseBothMissing ∈ (prepare errs0 tpl pd env now raw).errs ∧
        prepareRet (prepare errs0 tpl pd env now raw).errs ≠ none) ∧
    (e.BaseImageId ≠ "" ∧ e.BaseOsCode ≠ "" →
        GoErr.baseBothSet ∈ (prepare errs0 tpl pd env now raw).errs ∧
        prepareRet (prepare errs0 tpl pd env now raw).errs ≠ none) ∧
    ((e.BaseImageId ≠ "" ∧ e.BaseOsCode = "") ∨ (e.BaseImageId = "" ∧ e.BaseOsCode ≠ "") →
        GoErr.baseBothMissing ∉ (prepare errs0 tpl pd env now raw).errs ∧
        GoErr.baseBothSet ∉ (prepare errs0 tpl pd env now raw).errs) := by
  subst he
  refine ⟨fun h => ?_, fun h => ?_, fun h => ⟨fun hmem => ?_, fun hmem => ?_⟩⟩
  · have hm := (mem_prepare_errs errs0 tpl pd env now raw GoErr.baseBothMissing).mpr
      (Or.inr (Or.inr (Or.inl ((baseBothMissing_mem_validate _).mpr h))))
    exact ⟨hm, prepareRet_ne_none_of_mem _ _ hm⟩
  · have hm := (mem_prepare_errs errs0 tpl pd env now raw GoErr.baseBothSet).mpr
      (Or.inr (Or.inr (Or.inl ((baseBothSet_mem_validate _).mpr h))))
    exact ⟨hm, prepareRet_ne_none_of_mem _ _ hm⟩
  · rcases (mem_prepare_errs _ _ _ _ _ _ _).mp hmem with h1 | h2 | h3 | h4
    · obtain ⟨m, hm⟩ := h0 _ h1
      simp at hm
    · obtain ⟨n, m, hm⟩ := mem_processTemplates_errs h2
      simp at hm
    · have := (baseBothMissing_mem_validate _).mp h3
      rcases h with ⟨ha, hb⟩ | ⟨ha, hb⟩ <;> tauto
    · rcases mem_parseDurations_errs h4 with ⟨m, hm⟩ | ⟨m, hm⟩ <;> simp at hm
  · rcases (mem_prepare_errs _ _ _ _ _ _ _).mp hmem with h1 | h2 | h3 | h4
    · obtain ⟨m, hm⟩ := h0 _ h1
      simp at hm
    · obtain ⟨n, m, hm⟩ := mem_processTemplates_errs h2
      simp at hm
    · have := (baseBothSet_mem_validate _).mp h3
      rcases h with ⟨ha, hb⟩ | ⟨ha, hb⟩ <;> tauto
    · rcases mem_parseDurations_errs h4 with ⟨m, hm⟩ | ⟨m, hm⟩ <;> simp at hm

/-- Witness for C4: with only a base image id set, neither exclusivity error
is accumulated. -/
theorem base_image_exclusivity_witness :
    GoErr.baseBothMissing ∉
      (prepare [] tplId pdConcrete {} 0 { BaseImageId := "123" }).errs ∧
    GoErr.baseBothSet ∉
      (prepare [] tplId pdConcrete {} 0 { BaseImageId := "123" }).errs :=
  (base_image_exclusivity [] tplId pdConcrete {} 0 { BaseImageId := "123" } _
      (fun x hx => absurd hx (List.not_mem_nil x)) rfl).2.2
    (Or.inl ⟨by decide, by decide⟩)

/-- C5: after defaulting and template expansion, the dedicated
private-key-file error is accumulated exactly when a base image id is set and
the ssh private key file is empty; with a non-empty key file it never
appears. -/
theorem private_key_file_requirement (errs0 : List GoErr) (tpl : Tpl)
    (pd : ParseDuration) (env : Env) (now : Int) (raw e : config)
    (h0 : onlyUnusedKeys errs0)
    (he : e = (processTemplates tpl (applyDefaults raw env now)).1) :
    GoErr.missingPrivateKeyFile ∈ (prepare errs0 tpl pd env now raw).errs ↔
      (e.BaseImageId ≠ "" ∧ e.SshPrivateKeyFile = "") := by
  subst he
  rw [mem_prepare_errs]
  constructor
  · rintro (h1 | h2 | h3 | h4)
    · obtain ⟨m, hm⟩ := h0 _ h1
      simp at hm
    · obtain ⟨n, m, hm⟩ := mem_processTemplates_errs h2
      simp at hm
    · exact (missingPrivateKeyFile_mem_validate _).mp h3
    · rcases mem_parseDurations_errs h4 with ⟨m, hm⟩ | ⟨m, hm⟩ <;> simp at hm
  · intro h
    exact Or.inr (Or.inr (Or.inl ((missingPrivateKeyFile_mem_validate _).mpr h)))

/-- Witness for C5: a base image id with no key file produces the dedicated
error. -/
theorem private_key_file_requirement_witness :
    GoErr.missingPrivateKeyFile ∈
      (prepare [] tplId pdConcrete {} 0 { BaseImageId := "123" }).errs :=
  (private_key_file_requirement [] tplId pdConcrete {} 0 { BaseImageId := "123" } _
      (fun x hx => absurd hx (List.not_mem_nil x)) rfl).mpr ⟨by decide, by decide⟩

/-- C6: an empty image_type defaults to flex; an unknown-image-type error is
accumulated exactly when the validated image type is neither flex nor
standard; any accumulated unknown-image-type error makes `Prepare` return a
non-nil error; and for both allowed values with all other fields valid,
`Prepare` accumulates no error at all. -/
theorem image_type_validation :
    (∀ (raw : config) (env : Env) (now : Int),
      (applyDefaults raw env now).ImageType =
        if raw.ImageType = "" then IMAGE_TYPE_FLEX else raw.ImageType) ∧
    (∀ (errs0 : List GoErr) (tpl : Tpl) (pd : ParseDuration) (env : Env) (now : Int)
        (raw : config), onlyUnusedKeys errs0 →
      ((∃ t, GoErr.unknownImageType t ∈ (prepare errs0 tpl pd env now raw).errs) ↔
        ((processTemplates tpl (applyDefaults raw env now)).1.ImageType ≠ IMAGE_TYPE_FLEX ∧
         (processTemplates tpl (applyDefaults raw env now)).1.ImageType ≠ IMAGE_TYPE_STANDARD))) ∧
    (∀ (errs0 : List GoErr) (tpl : Tpl) (pd : ParseDuration) (env : Env) (now : Int)
        (raw : config) (t : String),
      GoErr.unknownImageType t ∈ (prepare errs0 tpl pd env now raw).errs →
      prepareRet (prepare errs0 tpl pd env now raw).errs ≠ none) ∧
    (∀ (t : String), t = IMAGE_TYPE_FLEX ∨ t = IMAGE_TYPE_STANDARD →
      (prepare [] tplId pdConcrete {} 0 { validBase with ImageType := t }).errs = []) := by
  refine ⟨fun raw env now => rfl, fun errs0 tpl pd env now raw h0 => ⟨?_, ?_⟩,
    fun errs0 tpl pd env now raw t hmem hnone => ?_, fun t h => ?_⟩
  · rintro ⟨t, ht⟩
    rcases (mem_prepare_errs _ _ _ _ _ _ _).mp ht with h1 | h2 | h3 | h4
    · obtain ⟨m, hm⟩ := h0 _ h1
      simp at hm
    · obtain ⟨n, m, hm⟩ := mem_processTemplates_errs h2
      simp at hm
    · exact ((unknownImageType_mem_validate _ _).mp h3).2
    · rcases mem_parseDurations_errs h4 with ⟨m, hm⟩ | ⟨m, hm⟩ <;> simp at hm
  · intro h
    refine ⟨(processTemplates tpl (applyDefaults raw env now)).1.ImageType, ?_⟩
    exact (mem_prepare_errs _ _ _ _ _ _ _).mpr
      (Or.inr (Or.inr (Or.inl ((unknownImageType_mem_validate _ _).mpr ⟨rfl, h⟩))))
  · rw [(prepareRet_none_iff _).mp hnone] at hmem
    exact absurd hmem (List.not_mem_nil _)
  · rcases h with rfl | rfl <;> decide

/-- Witness for C6: `"standard"` resolves cleanly; an invalid image type makes
`Prepare` return a non-nil error. -/
theorem image_type_validation_witness :
    (prepare [] tplId pdConcrete {} 0 { validBase with ImageType := "standard" }).errs = [] ∧
    prepareRet (prepare [] tplId pdConcrete {} 0 { validBase with ImageType := "vhd" }).errs
      ≠ none :=
  ⟨image_type_validation.2.2.2 "standard" (Or.inr rfl),
   image_type_validation.2.2.1 [] tplId pdConcrete {} 0
     { validBase with ImageType := "vhd" } "vhd" (by decide)⟩

/-- Counterexample to C7: the same valid raw input with the same (unset)
environment snapshot, resolved at clock readings 1 and 2, yields two
different resolved configurations — the defaulted instance name embeds the
clock, so resolution is not a pure function of input and environment alone. -/
theorem prepare_two_runs_differ :
    (prepare [] tplId pdConcrete {} 1 validBase).errs = [] ∧
    (prepare [] tplId pdConcrete {} 2 validBase).errs = [] ∧
    prepare [] tplId pdConcrete {} 1 validBase ≠ prepare [] tplId pdConcrete {} 2 validBase := by
  refine ⟨by decide, by decide, by decide⟩

/-- C7 (amended): resolution is deterministic given input, environment
snapshot and clock reading; and whenever the raw instance name is non-empty
(so the clock-dependent default is not taken), resolution does not depend on
the clock at all. -/
theorem prepare_clock_independent_when_named (errs0 : List GoErr) (tpl : Tpl)
    (pd : ParseDuration) (env : Env) (raw : config) (h : raw.InstanceName ≠ "")
    (now1 now2 : Int) :
    prepare errs0 tpl pd env now1 raw = prepare errs0 tpl pd env now2 raw := by
  have hd : applyDefaults raw env now1 = applyDefaults raw env now2 := by
    simp [applyDefaults, h]
  simp [prepare, hd]

/-- Witness for the amended C7 at a concrete named instance. -/
theorem prepare_clock_independent_when_named_witness :
    prepare [] tplId pdConcrete {} 1 { validBase with InstanceName := "x" } =
      prepare [] tplId pdConcrete {} 2 { validBase with InstanceName := "x" } :=
  prepare_clock_independent_when_named [] tplId pdConcrete {}
    { validBase with InstanceName := "x" } (by decide) 1 2

/-- C8: with empty api_key and username, both environment variables unset,
image_name `"img1"` and base_os_code `"UBUNTU_LATEST"`, `Prepare` accumulates
exactly two errors — missing api_key and missing username — for any
template expander that expands nothing and any duration parser accepting the
defaulted `"5m"` and `"10m"`. -/
theorem prepare_missing_credentials (tpl : Tpl) (pd : ParseDuration) (now : Int)
    (d1 d2 : Int)
    (htpl : ∀ s, tpl s = (s, none))
    (h5 : pd "5m" = .ok d1) (h10 : pd "10m" = .ok d2) :
    (prepare [] tpl pd ⟨"", ""⟩ now
        { ImageName := "img1", BaseOsCode := "UBUNTU_LATEST" }).errs
      = [GoErr.missingApiKey, GoErr.missingUsername] := by
  have ht : tpl = tplId := funext htpl
  subst ht
  have hd := parseDurations_ok pd
    (processTemplates tplId (applyDefaults
      { ImageName := "img1", BaseOsCode := "UBUNTU_LATEST" } ⟨"", ""⟩ now)).1 d1 d2 h5 h10
  simp only [prepare, hd]
  rfl

/-- Witness for C8 with the identity template expander and a concrete
duration parser. -/
theorem prepare_missing_credentials_witness :
    (prepare [] tplId pdConcrete ⟨"", ""⟩ 0
        { ImageName := "img1", BaseOsCode := "UBUNTU_LATEST" }).errs
      = [GoErr.missingApiKey, GoErr.missingUsername] :=
  prepare_missing_credentials tplId pdConcrete 0 300000000000 600000000000
    (fun _ => rfl) rfl rfl

/-- C9: `Prepare` returns a nil error exactly when no error was accumulated,
returns the whole accumulated set as one combined error otherwise, aggregates
the four stages' errors in order, and a failed ssh_timeout parse is
accumulated (with the zero duration assigned) while the state-timeout parse
and the rest of resolution still proceed. -/
theorem prepare_error_aggregation (errs0 : List GoErr) (tpl : Tpl)
    (pd : ParseDuration) (env : Env) (now : Int) (raw : config) :
    (prepareRet (prepare errs0 tpl pd env now raw).errs = none ↔
      (prepare errs0 tpl pd env now raw).errs = []) ∧
    ((prepare errs0 tpl pd env now raw).errs ≠ [] →
      prepareRet (prepare errs0 tpl pd env now raw).errs =
        some (prepare errs0 tpl pd env now raw).errs) ∧
    ((prepare errs0 tpl pd env now raw).errs =
      errs0 ++ (processTemplates tpl (applyDefaults raw env now)).2 ++
      validate (processTemplates tpl (applyDefaults raw env now)).1 ++
      (parseDurations pd (processTemplates tpl (applyDefaults raw env now)).1).2) ∧
    (∀ m, pd (processTemplates tpl (applyDefaults raw env now)).1.RawSshTimeout = .error m →
      GoErr.sshTimeoutParse m ∈ (prepare errs0 tpl pd env now raw).errs ∧
      (prepare errs0 tpl pd env now raw).cfg.SshTimeout = 0 ∧
      (∀ d, pd (processTemplates tpl (applyDefaults raw env now)).1.RawStateTimeout = .ok d →
        (prepare errs0 tpl pd env now raw).cfg.StateTimeout = d)) := by
  refine ⟨prepareRet_none_iff _, prepareRet_some _, rfl, fun m hm => ⟨?_, ?_, fun d hd => ?_⟩⟩
  · refine (mem_prepare_errs _ _ _ _ _ _ _).mpr (Or.inr (Or.inr (Or.inr ?_)))
    rcases h2 : pd (processTemplates tpl (applyDefaults raw env now)).1.RawStateTimeout with
      m2 | d2 <;> simp [parseDurations, hm, h2]
  · show (parseDurations pd (processTemplates tpl (applyDefaults raw env now)).1).1.SshTimeout = 0
    rcases h2 : pd (processTemplates tpl (applyDefaults raw env now)).1.RawStateTimeout with
      m2 | d2 <;> simp [parseDurations, hm, h2]
  · show (parseDurations pd (processTemplates tpl (applyDefaults raw env now)).1).1.StateTimeout = d
    simp [parseDurations, hm, hd]

/-- Witness for C9 at a concrete raw input whose ssh_timeout string does not
parse. -/
theorem prepare_error_aggregation_witness :
    GoErr.sshTimeoutParse "time: invalid duration bogus" ∈
      (prepare [] tplId pdConcrete {} 0 { validBase with RawSshTimeout := "bogus" }).errs ∧
    (prepare [] tplId pdConcrete {} 0 { validBase with RawSshTimeout := "bogus" }).cfg.SshTimeout
      = 0 ∧
    (prepare [] tplId pdConcrete {} 0 { validBase with RawSshTimeout := "bogus" }).cfg.StateTimeout
      = 600000000000 :=
  have h := (prepare_error_aggregation [] tplId pdConcrete {} 0
    { validBase with RawSshTimeout := "bogus" }).2.2.2 "time: invalid duration bogus" rfl
  ⟨h.1, h.2.1, h.2.2 600000000000 rfl⟩
